import Mathlib

/-!
Verification of `src/greenhouse/simulation_service.py` (otel-demo).

The service keeps three module-level dicts (`active_users`,
`simulation_threads`, `stop_flags`), a process-wide boolean `BUGS`, and a
set of counters/gauges.  We embed the dicts as association lists over
`String` keys, the HTTP / socket handlers as state transformers, and the
per-user worker loop `simulate_plant_data` as a fuelled recursion over an
oracle of stop-flag readings and fetch outcomes.  Thread liveness
("started, not yet drained by a join") is tracked explicitly in the state
by tagging each `threading.Thread` object with a generation number.
-/

namespace Greenhouse

/-- `d[k] = v` on a Python dict embedded as an association list: the new
binding is put in front and every older binding of `k` is dropped, so
`lookup` of `k` yields `v` and every other key is untouched. -/
def upsert (k : String) (v : β) (l : List (String × β)) : List (String × β) :=
  (k, v) :: l.filter (fun p => p.1 != k)

/-- `del d[k]` on a Python dict embedded as an association list. -/
def eraseKey (k : String) (l : List (String × β)) : List (String × β) :=
  l.filter (fun p => p.1 != k)

/-- `join_room` / `leave_room` calls made by the socket handlers, recorded
in the order they happen. -/
inductive RoomOp
  | join (room : String)
  | leave (room : String)
deriving DecidableEq

/-- Module-level state of `simulation_service.py`.  `liveTasks` is the
model's view of which spawned threads have not yet been `join`ed: a pair
`(user, gen)` is added by `thread.start()` and removed by
`simulation_threads[user].join()`.  `nextGen` numbers the threads. -/
structure ServiceState where
  active_users : List (String × Bool)
  simulation_threads : List (String × Nat)
  stop_flags : List (String × Bool)
  bugsFlag : Bool
  active_simulations : Int
  connections : Int
  error_count : Nat
  started_count : Nat
  roomLog : List RoomOp
  nextGen : Nat
  liveTasks : List (String × Nat)
deriving DecidableEq

def initState : ServiceState :=
  { active_users := [], simulation_threads := [], stop_flags := [],
    bugsFlag := false, active_simulations := 0, connections := 0,
    error_count := 0, started_count := 0, roomLog := [], nextGen := 0,
    liveTasks := [] }

/-- Python truthiness of `data.get("user_id")`: absent and `""` are falsy. -/
def truthy : Option String → Bool
  | none => false
  | some s => s != ""

/-- `POST /start_simulation`.  Returns the new state and the HTTP status. -/
def start_simulation (uid : Option String) (s : ServiceState) : ServiceState × Nat :=
  if truthy uid then
    let u := uid.getD ""
    let s1 : ServiceState := { s with started_count := s.started_count + 1 }
    let s2 : ServiceState :=
      match s1.simulation_threads.lookup u with
      | some g =>
          { s1 with stop_flags := upsert u true s1.stop_flags,
                    liveTasks := s1.liveTasks.filter (fun p => p.2 != g),
                    active_simulations := s1.active_simulations - 1 }
      | none => s1
    ({ s2 with stop_flags := upsert u false s2.stop_flags,
               simulation_threads := upsert u s2.nextGen s2.simulation_threads,
               liveTasks := s2.liveTasks ++ [(u, s2.nextGen)],
               nextGen := s2.nextGen + 1,
               active_simulations := s2.active_simulations + 1 }, 200)
  else
    ({ s with error_count := s.error_count + 1 }, 400)

/-- `GET /trigger_bug`. -/
def trigger_bug (s : ServiceState) : ServiceState :=
  { s with bugsFlag := true }

/-- Socket `connect` handler. -/
def handle_connect (uid : Option String) (s : ServiceState) : ServiceState :=
  if truthy uid then
    let u := uid.getD ""
    { s with active_users := upsert u true s.active_users,
             roomLog := s.roomLog ++ [RoomOp.join u],
             connections := s.connections + 1 }
  else s

/-- Socket `disconnect` handler.  `user_id in active_users` is a key test;
a missing query argument (`none`) is never a key. -/
def on_disconnect (uid : Option String) (s : ServiceState) : ServiceState :=
  match uid with
  | none => s
  | some u =>
    if (s.active_users.lookup u).isSome then
      let s1 : ServiceState :=
        { s with active_users := eraseKey u s.active_users,
                 roomLog := s.roomLog ++ [RoomOp.leave u],
                 connections := s.connections - 1 }
      if (s1.stop_flags.lookup u).isSome then
        let s2 : ServiceState := { s1 with stop_flags := upsert u true s1.stop_flags }
        match s2.simulation_threads.lookup u with
        | some g =>
            { s2 with liveTasks := s2.liveTasks.filter (fun p => p.2 != g),
                      active_simulations := s2.active_simulations - 1 }
        | none => s2
      else s1
    else s

inductive Event
  | startSim (uid : Option String)
  | connect (uid : Option String)
  | disconnect (uid : Option String)
  | triggerBug
deriving DecidableEq

def step (s : ServiceState) : Event → ServiceState
  | .startSim uid => (start_simulation uid s).1
  | .connect uid => handle_connect uid s
  | .disconnect uid => on_disconnect uid s
  | .triggerBug => trigger_bug s

/-- The service state after a sequence of handler invocations, starting
from the module-initial state. -/
def run (evs : List Event) : ServiceState :=
  evs.foldl step initState

/-! ## The per-user worker loop `simulate_plant_data` -/

/-- Python's `round` to the nearest integer, ties to even (the semantics
of the builtin used by `round(x, 2)`), over exact rationals. -/
def pyRoundInt (x : ℚ) : ℤ :=
  let f := ⌊x⌋
  let r := x - f
  if r < 1 / 2 then f
  else if 1 / 2 < r then f + 1
  else if f % 2 = 0 then f else f + 1

/-- `round(x, 2)`: round to two decimal places. -/
def round2 (x : ℚ) : ℚ :=
  (pyRoundInt (x * 100) : ℚ) / 100

/-- One draw of the four random samples a tick makes for one plant:
`uniform(20.0, 30.0)`, `uniform(40.0, 60.0)`, `randint(1, 10)`,
`randint(0, 10)`.  The sampling primitives themselves are the ambient
randomness; their range contracts enter theorems as hypotheses. -/
structure Rand where
  t : ℚ
  h : ℚ
  w : ℤ
  i : ℤ
deriving DecidableEq

/-- The `fake_data` reading built for one plant from one random draw. -/
structure Reading where
  temperature : ℚ
  humidity : ℚ
  water_level : ℤ
  number_of_insects : ℤ
deriving DecidableEq

def fake_data (r : Rand) : Reading :=
  { temperature := round2 r.t, humidity := round2 r.h,
    water_level := r.w, number_of_insects := r.i }

/-- One element of the decoded `/plants/<user_id>` JSON list, together
with the random draw its iteration will use; `bad` marks an element whose
processing raises an exception (e.g. a missing `"id"` key), which aborts
the `for` loop and lands in the tick's `except` clause. -/
inductive PlantItem
  | good (id : Nat) (r : Rand)
  | bad (msg : String)
deriving DecidableEq

/-- Outcome of `requests.get(f"{PLANT_SERVICE_URL}/plants/{user_id}")`
plus body decoding: a 200 with a plant list, a non-200 status, or an
exception raised by the transport. -/
inductive FetchOutcome
  | success (items : List PlantItem)
  | httpError (code : Nat)
  | raised (msg : String)
deriving DecidableEq

/-- The `for plant in plants:` loop.  Input: current `BUGS` flag and the
items; output: the emissions actually published (plant id and reading),
the number of `bug_triggered` error events, the `BUGS` flag afterwards,
and `some msg` when an item raised (aborting the rest of the loop). -/
def processItems : Bool → List PlantItem → List (Nat × Reading) × Nat × Bool × Option String
  | b, [] => ([], 0, b, none)
  | b, .bad msg :: _ => ([], 0, b, some msg)
  | b, .good pid r :: rest =>
    if b then
      let out := processItems false rest
      (out.1, out.2.1 + 1, out.2.2)
    else
      let out := processItems b rest
      ((pid, fake_data r) :: out.1, out.2)

/-- Everything one iteration of the `while` loop's `try` block does that
is observable: emissions published, `bug_triggered` error events,
`fetch_plants_failed` error events, `exception` error events, and the
`BUGS` flag at the end of the iteration. -/
structure TickResult where
  emissions : List (Nat × Reading)
  faultEvents : Nat
  fetchFailures : Nat
  exceptions : Nat
  bugsAfter : Bool
deriving DecidableEq

/-- One tick body including the `try/except` around it. -/
def runTick (b : Bool) : FetchOutcome → TickResult
  | .success items =>
    let out := processItems b items
    { emissions := out.1, faultEvents := out.2.1, fetchFailures := 0,
      exceptions := if out.2.2.2.isSome then 1 else 0, bugsAfter := out.2.2.1 }
  | .httpError _ =>
    { emissions := [], faultEvents := 0, fetchFailures := 1,
      exceptions := 0, bugsAfter := b }
  | .raised _ =>
    { emissions := [], faultEvents := 0, fetchFailures := 0,
      exceptions := 1, bugsAfter := b }

/-- The `while not stop_flags[user_id]:` loop, fuelled.  `flag i` is the
value of `stop_flags[user_id]` read at the top of iteration `i`; `fetch i`
is the outcome of that iteration's fetch; `b` is the `BUGS` flag entering
iteration `i`.  Returns the indexed tick results in order. -/
def runSim (flag : Nat → Bool) (fetch : Nat → FetchOutcome) :
    Nat → Nat → Bool → List (Nat × TickResult)
  | 0, _, _ => []
  | fuel + 1, i, b =>
    if flag i then []
    else
      let r := runTick b (fetch i)
      (i, r) :: runSim flag fetch fuel (i + 1) r.bugsAfter

/-- Does executing the tick body raise an exception? -/
def isBadItem : PlantItem → Bool
  | .bad _ => true
  | .good _ _ => false

def bodyRaises : FetchOutcome → Bool
  | .success items => items.any isBadItem
  | .httpError _ => false
  | .raised _ => true

/-- Did the PlantSource query itself fail — either a non-success status
or a transport error (an exception out of `requests.get`)? -/
def fetchFails : FetchOutcome → Bool
  | .success _ => false
  | .httpError _ => true
  | .raised _ => true

/-- The inductive invariant on the service state: every live thread is the
one currently registered for its user, generation numbers of live threads
are below the allocation counter, and no two live entries share a thread.
Together these give the central at-most-one-live-task-per-user property. -/
def Inv (s : ServiceState) : Prop :=
  (∀ p ∈ s.liveTasks, s.simulation_threads.lookup p.1 = some p.2) ∧
  (∀ p ∈ s.liveTasks, p.2 < s.nextGen) ∧
  (s.liveTasks.map Prod.snd).Nodup

/-! ## Association-list lemmas -/

theorem lookup_filter_ne (k k' : String) (h : k' ≠ k) (l : List (String × β)) :
    (l.filter (fun p => p.1 != k)).lookup k' = l.lookup k' := by
  induction l with
  | nil => rfl
  | cons p l ih =>
    by_cases hp : p.1 = k
    · have h1 : (p.1 != k) = false := by simp [hp]
      have h2 : (k' == p.1) = false := by simp [hp, h]
      simp [List.filter_cons, h1, List.lookup, h2, ih]
    · have h1 : (p.1 != k) = true := by simp [hp]
      by_cases hq : k' = p.1
      · simp [List.filter_cons, h1, List.lookup, hq]
      · have h2 : (k' == p.1) = false := by simp [hq]
        simp [List.filter_cons, h1, List.lookup, h2, ih]

theorem lookup_upsert_self (k : String) (v : β) (l : List (String × β)) :
    (upsert k v l).lookup k = some v := by
  simp [upsert, List.lookup]

theorem lookup_upsert_ne (k k' : String) (h : k' ≠ k) (v : β) (l : List (String × β)) :
    (upsert k v l).lookup k' = l.lookup k' := by
  simp [upsert, List.lookup, (by simpa using h : (k' == k) = false), lookup_filter_ne k k' h]

theorem mem_upsert {p : String × β} {k : String} {v : β} {l : List (String × β)} :
    p ∈ upsert k v l ↔ p = (k, v) ∨ (p ∈ l ∧ p.1 ≠ k) := by
  simp [upsert, List.mem_filter]

theorem lookup_filter_self (k : String) (l : List (String × β)) :
    (l.filter (fun p => p.1 != k)).lookup k = none := by
  induction l with
  | nil => rfl
  | cons p l ih =>
    by_cases hp : p.1 = k
    · have h1 : (p.1 != k) = false := by simp [hp]
      simp [List.filter_cons, h1, ih]
    · have h1 : (p.1 != k) = true := by simp [hp]
      have h2 : (k == p.1) = false := by simp [Ne.symm hp]
      simp [List.filter_cons, h1, List.lookup, h2, ih]

theorem lookup_eraseKey_self (k : String) (l : List (String × β)) :
    (eraseKey k l).lookup k = none :=
  lookup_filter_self k l

theorem upsert_idem (k : String) (v : β) (l : List (String × β)) :
    upsert k v (upsert k v l) = upsert k v l := by
  simp [upsert, List.filter_cons, List.filter_filter]

/-! ## Lemmas about the plant loop -/

theorem processItems_good (goods : List (Nat × Rand)) :
    processItems false (goods.map fun g => PlantItem.good g.1 g.2) =
      (goods.map (fun g => (g.1, fake_data g.2)), 0, false, none) := by
  induction goods with
  | nil => rfl
  | cons g rest ih => simp [processItems, ih]

theorem processItems_err (items : List PlantItem) :
    ∀ b : Bool, (processItems b items).2.2.2.isSome = items.any isBadItem := by
  induction items with
  | nil => intro b; rfl
  | cons it rest ih =>
    intro b
    cases it with
    | bad msg => simp [processItems, isBadItem]
    | good pid r =>
      cases b with
      | false => simp [processItems, isBadItem, ih]
      | true => simp [processItems, isBadItem, ih]

theorem mem_runSim_flag (flag : Nat → Bool) (fetch : Nat → FetchOutcome) :
    ∀ (fuel i : Nat) (b : Bool) (p : Nat × TickResult),
      p ∈ runSim flag fetch fuel i b → flag p.1 = false := by
  intro fuel
  induction fuel with
  | zero => intro i b p h; simp [runSim] at h
  | succ n ih =>
    intro i b p h
    by_cases hf : flag i = true
    · simp [runSim, hf] at h
    · rw [Bool.not_eq_true] at hf
      simp only [runSim, hf, if_false] at h
      cases h with
      | head => exact hf
      | tail _ h => exact ih _ _ _ h

/-! ## C3 — the fault flag is single-shot -/

/-- C3: a tick that begins with the fault flag (`BUGS`) true over a plant
list with at least two entries suppresses exactly the first entry's
emission (recording exactly one fault event), leaves the flag false at the
end of the tick, and delivers every remaining entry normally. -/
theorem fault_flag_single_shot (goods : List (Nat × Rand)) (h2 : 2 ≤ goods.length) :
    runTick true (FetchOutcome.success (goods.map fun g => PlantItem.good g.1 g.2)) =
      { emissions := (goods.drop 1).map (fun g => (g.1, fake_data g.2)),
        faultEvents := 1, fetchFailures := 0, exceptions := 0, bugsAfter := false } ∧
    ((goods.drop 1).map (fun g => (g.1, fake_data g.2))).length = goods.length - 1 := by
  obtain ⟨g0, rest, rfl⟩ : ∃ g0 rest, goods = g0 :: rest := by
    cases goods with
    | nil => simp at h2
    | cons a l => exact ⟨a, l, rfl⟩
  refine ⟨?_, by simp⟩
  simp [runTick, processItems, processItems_good]

theorem fault_flag_single_shot_witness :
    2 ≤ ([((1 : Nat), (⟨25, 50, 5, 5⟩ : Rand)), (2, ⟨26, 51, 6, 6⟩)] : List (Nat × Rand)).length ∧
    (runTick true (FetchOutcome.success
        (([((1 : Nat), (⟨25, 50, 5, 5⟩ : Rand)), (2, ⟨26, 51, 6, 6⟩)]).map
          fun g => PlantItem.good g.1 g.2)) =
      { emissions := (([((1 : Nat), (⟨25, 50, 5, 5⟩ : Rand)), (2, ⟨26, 51, 6, 6⟩)].drop 1).map
          (fun g => (g.1, fake_data g.2))),
        faultEvents := 1, fetchFailures := 0, exceptions := 0, bugsAfter := false } ∧
     (([((1 : Nat), (⟨25, 50, 5, 5⟩ : Rand)), (2, ⟨26, 51, 6, 6⟩)].drop 1).map
          (fun g => (g.1, fake_data g.2))).length =
       [((1 : Nat), (⟨25, 50, 5, 5⟩ : Rand)), (2, ⟨26, 51, 6, 6⟩)].length - 1) :=
  ⟨by decide, fault_flag_single_shot _ (by decide)⟩

/-! ## C4 — no tick after the stop flag is raised -/

/-- C4: the stop flag is checked at the top of each iteration of
`simulate_plant_data`; once it has been raised (it stays raised from index
`n` on), no tick with index `≥ n` is ever executed, and a loop entered at
an index whose flag is already raised performs no tick at all. -/
theorem no_tick_after_cancel (flag : Nat → Bool) (fetch : Nat → FetchOutcome)
    (n : Nat) (hmono : ∀ i j, i ≤ j → flag i = true → flag j = true)
    (hn : flag n = true) (fuel : Nat) (b : Bool) :
    (∀ p ∈ runSim flag fetch fuel 0 b, p.1 < n) ∧
    (∀ (i : Nat) (b' : Bool), flag i = true → runSim flag fetch fuel i b' = []) := by
  constructor
  · intro p hp
    by_contra hlt
    push_neg at hlt
    have h1 : flag p.1 = true := hmono n p.1 hlt hn
    have h2 : flag p.1 = false := mem_runSim_flag flag fetch fuel 0 b p hp
    rw [h1] at h2
    cases h2
  · intro i b' hi
    cases fuel with
    | zero => rfl
    | succ m => simp [runSim, hi]

theorem no_tick_after_cancel_witness :
    (∀ i j : Nat, i ≤ j → decide (1 ≤ i) = true → decide (1 ≤ j) = true) ∧
    decide (1 ≤ 1) = true ∧
    ((∀ p ∈ runSim (fun k => decide (1 ≤ k)) (fun _ => FetchOutcome.httpError 500) 5 0 false,
        p.1 < 1) ∧
     (∀ (i : Nat) (b' : Bool), (fun k => decide (1 ≤ k)) i = true →
        runSim (fun k => decide (1 ≤ k)) (fun _ => FetchOutcome.httpError 500) 5 i b' = [])) :=
  ⟨fun i j hij hi => by simpa using le_trans (by simpa using hi) hij,
   by decide,
   no_tick_after_cancel (fun k => decide (1 ≤ k)) (fun _ => FetchOutcome.httpError 500) 1
     (fun i j hij hi => by simpa using le_trans (by simpa using hi) hij)
     (by decide) 5 false⟩

/-! ## C5 — a failed fetch skips the tick but does not kill the task -/

/-- C5: for every tick `i` whose PlantSource query fails — a non-success
status OR a transport error — the tick emits nothing and records exactly
one failure (a `fetch_plants_failed` record for a bad status, an
`exception` record for a transport raise), and the task does not
terminate: with the stop flag down, tick `i` and tick `i + 1` both run,
and a successful fetch on tick `i + 1` delivers all plants normally. -/
theorem tick_resilience (flag : Nat → Bool) (fetch : Nat → FetchOutcome)
    (i fuel : Nat) (goods : List (Nat × Rand))
    (hfail : fetchFails (fetch i) = true)
    (hsucc : fetch (i + 1) =
      FetchOutcome.success (goods.map fun g => PlantItem.good g.1 g.2))
    (hfi : flag i = false) (hfj : flag (i + 1) = false) :
    (runTick false (fetch i)).emissions = [] ∧
    (runTick false (fetch i)).fetchFailures + (runTick false (fetch i)).exceptions = 1 ∧
    (runTick false (fetch i)).bugsAfter = false ∧
    runSim flag fetch (fuel + 2) i false =
      (i, runTick false (fetch i)) ::
      (i + 1, { emissions := goods.map (fun g => (g.1, fake_data g.2)), faultEvents := 0,
                fetchFailures := 0, exceptions := 0, bugsAfter := false }) ::
      runSim flag fetch fuel (i + 2) false := by
  have hfi0 : (runTick false (fetch i)).emissions = [] ∧
      (runTick false (fetch i)).fetchFailures + (runTick false (fetch i)).exceptions = 1 ∧
      (runTick false (fetch i)).bugsAfter = false := by
    cases hfe : fetch i with
    | success items => rw [hfe] at hfail; simp [fetchFails] at hfail
    | httpError code => simp [runTick]
    | raised msg => simp [runTick]
  obtain ⟨he, hc, hb⟩ := hfi0
  refine ⟨he, hc, hb, ?_⟩
  have h1 : runSim flag fetch (fuel + 2) i false =
      (i, runTick false (fetch i)) ::
        runSim flag fetch (fuel + 1) (i + 1) (runTick false (fetch i)).bugsAfter := by
    simp [runSim, hfi]
  rw [h1, hb]
  have h2 : runSim flag fetch (fuel + 1) (i + 1) false =
      (i + 1, runTick false (fetch (i + 1))) ::
        runSim flag fetch fuel (i + 1 + 1) (runTick false (fetch (i + 1))).bugsAfter := by
    simp [runSim, hfj]
  rw [h2, hsucc]
  have h3 : runTick false (FetchOutcome.success (goods.map fun g => PlantItem.good g.1 g.2)) =
      { emissions := goods.map (fun g => (g.1, fake_data g.2)), faultEvents := 0,
        fetchFailures := 0, exceptions := 0, bugsAfter := false } := by
    simp [runTick, processItems_good]
  rw [h3]

theorem tick_resilience_witness :
    fetchFails ((fun i => if i = 0 then FetchOutcome.raised "connection refused"
        else FetchOutcome.success [PlantItem.good 7 ⟨25, 50, 5, 5⟩]) 0) = true ∧
    ((fun i => if i = 0 then FetchOutcome.raised "connection refused"
        else FetchOutcome.success [PlantItem.good 7 ⟨25, 50, 5, 5⟩]) (0 + 1) =
      FetchOutcome.success (([((7 : Nat), (⟨25, 50, 5, 5⟩ : Rand))]).map
        fun g => PlantItem.good g.1 g.2)) ∧
    ((fun _ : Nat => false) 0 = false) ∧ ((fun _ : Nat => false) (0 + 1) = false) ∧
    ((runTick false ((fun i => if i = 0 then FetchOutcome.raised "connection refused"
        else FetchOutcome.success [PlantItem.good 7 ⟨25, 50, 5, 5⟩]) 0)).emissions = [] ∧
     (runTick false ((fun i => if i = 0 then FetchOutcome.raised "connection refused"
        else FetchOutcome.success [PlantItem.good 7 ⟨25, 50, 5, 5⟩]) 0)).fetchFailures +
       (runTick false ((fun i => if i = 0 then FetchOutcome.raised "connection refused"
        else FetchOutcome.success [PlantItem.good 7 ⟨25, 50, 5, 5⟩]) 0)).exceptions = 1 ∧
     (runTick false ((fun i => if i = 0 then FetchOutcome.raised "connection refused"
        else FetchOutcome.success [PlantItem.good 7 ⟨25, 50, 5, 5⟩]) 0)).bugsAfter = false ∧
     runSim (fun _ => false)
        (fun i => if i = 0 then FetchOutcome.raised "connection refused"
          else FetchOutcome.success [PlantItem.good 7 ⟨25, 50, 5, 5⟩]) (0 + 2) 0 false =
       (0, runTick false ((fun i => if i = 0 then FetchOutcome.raised "connection refused"
          else FetchOutcome.success [PlantItem.good 7 ⟨25, 50, 5, 5⟩]) 0)) ::
       (0 + 1, { emissions := [((7 : Nat), (⟨25, 50, 5, 5⟩ : Rand))].map
                   (fun g => (g.1, fake_data g.2)),
                 faultEvents := 0, fetchFailures := 0, exceptions := 0, bugsAfter := false }) ::
       runSim (fun _ => false)
         (fun i => if i = 0 then FetchOutcome.raised "connection refused"
           else FetchOutcome.success [PlantItem.good 7 ⟨25, 50, 5, 5⟩]) 0 (0 + 2) false) :=
  ⟨rfl, rfl, rfl, rfl,
   tick_resilience (fun _ => false)
     (fun i => if i = 0 then FetchOutcome.raised "connection refused"
       else FetchOutcome.success [PlantItem.good 7 ⟨25, 50, 5, 5⟩])
     0 0 [((7 : Nat), ⟨25, 50, 5, 5⟩)] rfl rfl rfl rfl⟩

/-! ## C6 — exceptions inside a tick are caught at the tick boundary -/

/-- C6: whenever the body of a tick raises — the transport call itself or
the processing of any plant item — the exception is caught at the tick
boundary, recorded as exactly one `exception` error event, and the loop
continues: the next iteration still runs (the worker is never terminated
by an in-tick exception). -/
theorem exception_in_tick_caught (flag : Nat → Bool) (fetch : Nat → FetchOutcome)
    (fuel i : Nat) (b : Bool)
    (hraise : bodyRaises (fetch i) = true)
    (hfi : flag i = false) (hfj : flag (i + 1) = false) :
    (runTick b (fetch i)).exceptions = 1 ∧
    runSim flag fetch (fuel + 2) i b =
      (i, runTick b (fetch i)) ::
        runSim flag fetch (fuel + 1) (i + 1) (runTick b (fetch i)).bugsAfter ∧
    2 ≤ (runSim flag fetch (fuel + 2) i b).length := by
  have hexc : (runTick b (fetch i)).exceptions = 1 := by
    cases hfe : fetch i with
    | success items =>
      rw [hfe] at hraise
      simp only [bodyRaises] at hraise
      simp [runTick, processItems_err, hraise]
    | httpError code => rw [hfe] at hraise; simp [bodyRaises] at hraise
    | raised msg => simp [runTick]
  have hstep : runSim flag fetch (fuel + 2) i b =
      (i, runTick b (fetch i)) ::
        runSim flag fetch (fuel + 1) (i + 1) (runTick b (fetch i)).bugsAfter := by
    simp [runSim, hfi]
  refine ⟨hexc, hstep, ?_⟩
  rw [hstep]
  have : runSim flag fetch (fuel + 1) (i + 1) (runTick b (fetch i)).bugsAfter =
      (i + 1, runTick (runTick b (fetch i)).bugsAfter (fetch (i + 1))) ::
        runSim flag fetch fuel (i + 2)
          (runTick (runTick b (fetch i)).bugsAfter (fetch (i + 1))).bugsAfter := by
    simp [runSim, hfj]
  rw [this]
  simp

theorem exception_in_tick_caught_witness :
    bodyRaises ((fun _ => FetchOutcome.raised "boom") 0) = true ∧
    ((fun _ : Nat => false) 0 = false) ∧ ((fun _ : Nat => false) (0 + 1) = false) ∧
    ((runTick false ((fun _ => FetchOutcome.raised "boom") 0)).exceptions = 1 ∧
     runSim (fun _ => false) (fun _ => FetchOutcome.raised "boom") (0 + 2) 0 false =
       (0, runTick false ((fun _ => FetchOutcome.raised "boom") 0)) ::
         runSim (fun _ => false) (fun _ => FetchOutcome.raised "boom") (0 + 1) (0 + 1)
           (runTick false ((fun _ => FetchOutcome.raised "boom") 0)).bugsAfter ∧
     2 ≤ (runSim (fun _ => false) (fun _ => FetchOutcome.raised "boom") (0 + 2) 0 false).length) :=
  ⟨rfl, rfl, rfl,
   exception_in_tick_caught (fun _ => false) (fun _ => FetchOutcome.raised "boom")
     0 0 false rfl rfl rfl⟩

/-! ## C9 — every generated reading lies within the fixed ranges -/

theorem le_pyRoundInt (lo : ℤ) (x : ℚ) (h : (lo : ℚ) ≤ x) : lo ≤ pyRoundInt x := by
  have hf : lo ≤ ⌊x⌋ := Int.le_floor.mpr h
  dsimp only [pyRoundInt]
  split_ifs <;> omega

theorem pyRoundInt_le (hi : ℤ) (x : ℚ) (h : x ≤ (hi : ℚ)) : pyRoundInt x ≤ hi := by
  have hf : ⌊x⌋ ≤ hi := by
    have h1 := Int.floor_le_floor h
    simpa using h1
  dsimp only [pyRoundInt]
  split_ifs with h1 h2 h3
  · exact hf
  · have hx : (⌊x⌋ : ℚ) < x := by linarith
    have hxi : ⌊x⌋ < hi := by exact_mod_cast lt_of_lt_of_le hx h
    omega
  · exact hf
  · have hr : (1 : ℚ) / 2 ≤ x - ⌊x⌋ := le_of_not_lt h1
    have hx : (⌊x⌋ : ℚ) < x := by linarith
    have hxi : ⌊x⌋ < hi := by exact_mod_cast lt_of_lt_of_le hx h
    omega

theorem round2_bounds (lo hi : ℤ) (x : ℚ) (h1 : (lo : ℚ) ≤ x) (h2 : x ≤ (hi : ℚ)) :
    (lo : ℚ) ≤ round2 x ∧ round2 x ≤ (hi : ℚ) := by
  have hl : lo * 100 ≤ pyRoundInt (x * 100) := by
    refine le_pyRoundInt _ _ ?_
    push_cast
    linarith
  have hr : pyRoundInt (x * 100) ≤ hi * 100 := by
    refine pyRoundInt_le _ _ ?_
    push_cast
    linarith
  constructor
  · rw [round2, le_div_iff₀ (by norm_num : (0 : ℚ) < 100)]
    exact_mod_cast hl
  · rw [round2, div_le_iff₀ (by norm_num : (0 : ℚ) < 100)]
    exact_mod_cast hr

/-- C9: whenever the four random draws obey the contracts of
`uniform(20.0, 30.0)`, `uniform(40.0, 60.0)`, `randint(1, 10)` and
`randint(0, 10)`, the `fake_data` reading built from them has temperature
in `[20, 30]`, humidity in `[40, 60]`, water level an integer in
`[1, 10]` and insect count an integer in `[0, 10]` — the two-decimal
rounding cannot push a value outside its range. -/
theorem reading_bounds (r : Rand)
    (ht1 : (20 : ℚ) ≤ r.t) (ht2 : r.t ≤ 30)
    (hh1 : (40 : ℚ) ≤ r.h) (hh2 : r.h ≤ 60)
    (hw1 : (1 : ℤ) ≤ r.w) (hw2 : r.w ≤ 10)
    (hi1 : (0 : ℤ) ≤ r.i) (hi2 : r.i ≤ 10) :
    (20 : ℚ) ≤ (fake_data r).temperature ∧ (fake_data r).temperature ≤ 30 ∧
    (40 : ℚ) ≤ (fake_data r).humidity ∧ (fake_data r).humidity ≤ 60 ∧
    (1 : ℤ) ≤ (fake_data r).water_level ∧ (fake_data r).water_level ≤ 10 ∧
    (0 : ℤ) ≤ (fake_data r).number_of_insects ∧ (fake_data r).number_of_insects ≤ 10 := by
  have ht := round2_bounds 20 30 r.t (by exact_mod_cast ht1) (by exact_mod_cast ht2)
  have hh := round2_bounds 40 60 r.h (by exact_mod_cast hh1) (by exact_mod_cast hh2)
  refine ⟨?_, ?_, ?_, ?_, hw1, hw2, hi1, hi2⟩
  · simpa [fake_data] using ht.1
  · simpa [fake_data] using ht.2
  · simpa [fake_data] using hh.1
  · simpa [fake_data] using hh.2

theorem reading_bounds_witness :
    ((20 : ℚ) ≤ (⟨201 / 8, 50, 5, 5⟩ : Rand).t ∧ (⟨201 / 8, 50, 5, 5⟩ : Rand).t ≤ 30) ∧
    ((20 : ℚ) ≤ (fake_data ⟨201 / 8, 50, 5, 5⟩).temperature ∧
     (fake_data ⟨201 / 8, 50, 5, 5⟩).temperature ≤ 30 ∧
     (40 : ℚ) ≤ (fake_data ⟨201 / 8, 50, 5, 5⟩).humidity ∧
     (fake_data ⟨201 / 8, 50, 5, 5⟩).humidity ≤ 60 ∧
     (1 : ℤ) ≤ (fake_data ⟨201 / 8, 50, 5, 5⟩).water_level ∧
     (fake_data ⟨201 / 8, 50, 5, 5⟩).water_level ≤ 10 ∧
     (0 : ℤ) ≤ (fake_data ⟨201 / 8, 50, 5, 5⟩).number_of_insects ∧
     (fake_data ⟨201 / 8, 50, 5, 5⟩).number_of_insects ≤ 10) :=
  ⟨⟨by norm_num, by norm_num⟩,
   reading_bounds _ (by norm_num) (by norm_num) (by norm_num) (by norm_num)
     (by norm_num) (by norm_num) (by norm_num) (by norm_num)⟩

/-! ## C7 — an invalid start request is rejected without touching state -/

/-- C7: a `start_simulation` request whose body has no truthy `user_id`
returns 400 and leaves the whole state unchanged except for the error
counter: no thread is launched, no task-map or stop-flag entry is added,
and the active-simulations gauge is untouched. -/
theorem invalid_start_rejected (s : ServiceState) (uid : Option String)
    (h : truthy uid = false) :
    (start_simulation uid s).2 = 400 ∧
    (start_simulation uid s).1 = { s with error_count := s.error_count + 1 } ∧
    (start_simulation uid s).1.simulation_threads = s.simulation_threads ∧
    (start_simulation uid s).1.stop_flags = s.stop_flags ∧
    (start_simulation uid s).1.liveTasks = s.liveTasks ∧
    (start_simulation uid s).1.active_simulations = s.active_simulations ∧
    (start_simulation uid s).1.nextGen = s.nextGen := by
  simp [start_simulation, h]

theorem invalid_start_rejected_witness :
    truthy none = false ∧
    ((start_simulation none initState).2 = 400 ∧
     (start_simulation none initState).1 =
       { initState with error_count := initState.error_count + 1 } ∧
     (start_simulation none initState).1.simulation_threads = initState.simulation_threads ∧
     (start_simulation none initState).1.stop_flags = initState.stop_flags ∧
     (start_simulation none initState).1.liveTasks = initState.liveTasks ∧
     (start_simulation none initState).1.active_simulations = initState.active_simulations ∧
     (start_simulation none initState).1.nextGen = initState.nextGen) :=
  ⟨rfl, invalid_start_rejected initState none rfl⟩

/-! ## C10 — connect without a user id, and disconnect of an unknown user,
are no-ops -/

/-- C10: a `connect` event carrying no (or an empty) `user_id` leaves the
state completely unchanged — no registry entry, no room join, no
connection-count increment — and a `disconnect` event whose user id is
not a key of `active_users` is likewise a complete no-op. -/
theorem connect_disconnect_noop (s : ServiceState) (uid uid2 : Option String)
    (h1 : truthy uid = false)
    (h2 : ∀ u, uid2 = some u → s.active_users.lookup u = none) :
    handle_connect uid s = s ∧ on_disconnect uid2 s = s := by
  constructor
  · simp [handle_connect, h1]
  · cases uid2 with
    | none => rfl
    | some u => simp [on_disconnect, h2 u rfl]

theorem connect_disconnect_noop_witness :
    truthy none = false ∧
    (∀ u, (some "ghost" : Option String) = some u →
      initState.active_users.lookup u = none) ∧
    (handle_connect none initState = initState ∧
     on_disconnect (some "ghost") initState = initState) :=
  ⟨rfl, fun _ _ => rfl,
   connect_disconnect_noop initState none (some "ghost") rfl (fun _ _ => rfl)⟩

/-! ## C1 — at most one live simulation task per user -/

theorem on_disconnect_threads (uid : Option String) (s : ServiceState) :
    (on_disconnect uid s).simulation_threads = s.simulation_threads := by
  cases uid with
  | none => rfl
  | some u =>
    simp only [on_disconnect]
    split_ifs <;> try rfl
    split <;> rfl

theorem on_disconnect_nextGen (uid : Option String) (s : ServiceState) :
    (on_disconnect uid s).nextGen = s.nextGen := by
  cases uid with
  | none => rfl
  | some u =>
    simp only [on_disconnect]
    split_ifs <;> try rfl
    split <;> rfl

theorem on_disconnect_live (uid : Option String) (s : ServiceState) :
    (on_disconnect uid s).liveTasks = s.liveTasks ∨
    ∃ g, (on_disconnect uid s).liveTasks = s.liveTasks.filter (fun p => p.2 != g) := by
  cases uid with
  | none => exact Or.inl rfl
  | some u =>
    simp only [on_disconnect]
    split_ifs
    · split
      · exact Or.inr ⟨_, rfl⟩
      · exact Or.inl rfl
    · exact Or.inl rfl
    · exact Or.inl rfl

theorem inv_initState : Inv initState := by
  refine ⟨?_, ?_, ?_⟩ <;> simp [initState, Inv]

theorem inv_on_disconnect (uid : Option String) (s : ServiceState) (hs : Inv s) :
    Inv (on_disconnect uid s) := by
  obtain ⟨hA, hB, hN⟩ := hs
  have ht := on_disconnect_threads uid s
  have hg := on_disconnect_nextGen uid s
  rcases on_disconnect_live uid s with hl | ⟨g, hl⟩
  · exact ⟨fun p hp => by rw [ht]; exact hA p (by rwa [hl] at hp),
      fun p hp => by rw [hg]; exact hB p (by rwa [hl] at hp),
      by rw [hl]; exact hN⟩
  · refine ⟨?_, ?_, ?_⟩
    · intro p hp
      rw [hl] at hp
      rw [ht]
      exact hA p (List.mem_filter.mp hp).1
    · intro p hp
      rw [hl] at hp
      rw [hg]
      exact hB p (List.mem_filter.mp hp).1
    · rw [hl]
      exact hN.sublist ((List.filter_sublist _).map Prod.snd)

theorem inv_start (uid : Option String) (s : ServiceState) (hs : Inv s) :
    Inv (start_simulation uid s).1 := by
  obtain ⟨hA, hB, hN⟩ := hs
  by_cases h : truthy uid = true
  case neg =>
    rw [Bool.not_eq_true] at h
    simp only [start_simulation, h, Bool.false_eq_true, if_false]
    exact ⟨hA, hB, hN⟩
  case pos =>
    cases hlk : s.simulation_threads.lookup (uid.getD "") with
    | some g =>
      have hres : (start_simulation uid s).1 =
          { s with started_count := s.started_count + 1,
                   stop_flags := upsert (uid.getD "") false
                     (upsert (uid.getD "") true s.stop_flags),
                   simulation_threads := upsert (uid.getD "") s.nextGen s.simulation_threads,
                   liveTasks := (s.liveTasks.filter (fun p => p.2 != g)) ++
                     [(uid.getD "", s.nextGen)],
                   nextGen := s.nextGen + 1,
                   active_simulations := s.active_simulations - 1 + 1 } := by
        simp [start_simulation, h, hlk]
      rw [hres]
      refine ⟨?_, ?_, ?_⟩
      · intro p hp
        rcases List.mem_append.mp hp with hp | hp
        · obtain ⟨hpl, hpg⟩ := List.mem_filter.mp hp
          have hpg' : p.2 ≠ g := by simpa using hpg
          have hne : p.1 ≠ uid.getD "" := by
            intro hequ
            have h1 := hA p hpl
            rw [hequ, hlk] at h1
            exact hpg' (Option.some.inj h1).symm
          rw [lookup_upsert_ne _ _ hne]
          exact hA p hpl
        · have : p = (uid.getD "", s.nextGen) := by simpa using hp
          rw [this]
          exact lookup_upsert_self _ _ _
      · intro p hp
        rcases List.mem_append.mp hp with hp | hp
        · exact Nat.lt_succ_of_lt (hB p (List.mem_filter.mp hp).1)
        · have : p = (uid.getD "", s.nextGen) := by simpa using hp
          rw [this]
          exact Nat.lt_succ_self _
      · rw [List.map_append]
        refine List.Nodup.append ?_ (by simp) ?_
        · exact hN.sublist ((List.filter_sublist _).map Prod.snd)
        · intro a ha hb
          have hb' : a = s.nextGen := by simpa using hb
          obtain ⟨p, hp, hpa⟩ := List.mem_map.mp ha
          have := hB p (List.mem_filter.mp hp).1
          omega
    | none =>
      have hres : (start_simulation uid s).1 =
          { s with started_count := s.started_count + 1,
                   stop_flags := upsert (uid.getD "") false s.stop_flags,
                   simulation_threads := upsert (uid.getD "") s.nextGen s.simulation_threads,
                   liveTasks := s.liveTasks ++ [(uid.getD "", s.nextGen)],
                   nextGen := s.nextGen + 1,
                   active_simulations := s.active_simulations + 1 } := by
        simp [start_simulation, h, hlk]
      rw [hres]
      refine ⟨?_, ?_, ?_⟩
      · intro p hp
        rcases List.mem_append.mp hp with hp | hp
        · have hne : p.1 ≠ uid.getD "" := by
            intro hequ
            have h1 := hA p hp
            rw [hequ, hlk] at h1
            cases h1
          rw [lookup_upsert_ne _ _ hne]
          exact hA p hp
        · have : p = (uid.getD "", s.nextGen) := by simpa using hp
          rw [this]
          exact lookup_upsert_self _ _ _
      · intro p hp
        rcases List.mem_append.mp hp with hp | hp
        · exact Nat.lt_succ_of_lt (hB p hp)
        · have : p = (uid.getD "", s.nextGen) := by simpa using hp
          rw [this]
          exact Nat.lt_succ_self _
      · rw [List.map_append]
        refine List.Nodup.append hN (by simp) ?_
        intro a ha hb
        have hb' : a = s.nextGen := by simpa using hb
        obtain ⟨p, hp, hpa⟩ := List.mem_map.mp ha
        have := hB p hp
        omega

theorem inv_step (s : ServiceState) (hs : Inv s) (ev : Event) : Inv (step s ev) := by
  obtain ⟨hA, hB, hN⟩ := hs
  cases ev with
  | startSim uid => exact inv_start uid s ⟨hA, hB, hN⟩
  | connect uid =>
    by_cases h : truthy uid = true
    · simp only [step, handle_connect, h, if_true]
      exact ⟨hA, hB, hN⟩
    · rw [Bool.not_eq_true] at h
      simp only [step, handle_connect, h, Bool.false_eq_true, if_false]
      exact ⟨hA, hB, hN⟩
  | disconnect uid => exact inv_on_disconnect uid s ⟨hA, hB, hN⟩
  | triggerBug => exact ⟨hA, hB, hN⟩

theorem inv_run (evs : List Event) : Inv (run evs) := by
  suffices h : ∀ (l : List Event) (s : ServiceState), Inv s → Inv (l.foldl step s) by
    exact h evs initState inv_initState
  intro l
  induction l with
  | nil => intro s hs; exact hs
  | cons e l ih => intro s hs; exact ih _ (inv_step s hs e)

theorem live_count_le_one (f : String → Option Nat) :
    ∀ (L : List (String × Nat)), (∀ p ∈ L, f p.1 = some p.2) →
      (L.map Prod.snd).Nodup → ∀ u : String,
      (L.filter (fun p => p.1 == u)).length ≤ 1 := by
  intro L
  induction L with
  | nil => intro _ _ u; simp
  | cons a L ih =>
    intro hA hN u
    have hN' : (L.map Prod.snd).Nodup := by
      rw [List.map_cons, List.nodup_cons] at hN
      exact hN.2
    have hnotin : a.2 ∉ L.map Prod.snd := by
      rw [List.map_cons, List.nodup_cons] at hN
      exact hN.1
    by_cases ha : a.1 = u
    · have hLnil : L.filter (fun p => p.1 == u) = [] := by
        rw [List.filter_eq_nil_iff]
        intro p hp hpu
        have hpu' : p.1 = u := by simpa using hpu
        have h1 := hA p (List.mem_cons_of_mem _ hp)
        have h2 := hA a (List.mem_cons_self _ _)
        rw [hpu', ← ha, h2] at h1
        have hpa : p.2 = a.2 := (Option.some.inj h1).symm
        exact hnotin (hpa ▸ List.mem_map_of_mem Prod.snd hp)
      have hcons : (a.1 == u) = true := by simpa using ha
      simp [List.filter_cons, hcons, hLnil]
    · have hcons : (a.1 == u) = false := by simpa using ha
      simp only [List.filter_cons, hcons, Bool.false_eq_true, if_false]
      exact ih (fun p hp => hA p (List.mem_cons_of_mem _ hp)) hN' u

theorem run_append_single (evs : List Event) (ev : Event) :
    run (evs ++ [ev]) = step (run evs) ev := by
  simp [run, List.foldl_append]

theorem start_fresh (s : ServiceState) (hs : Inv s) (u : String) (hu : u ≠ "") :
    (start_simulation (some u) s).1.liveTasks.filter (fun p => p.1 == u) =
      [(u, s.nextGen)] := by
  obtain ⟨hA, hB, hN⟩ := hs
  have htr : truthy (some u) = true := by simp [truthy, hu]
  cases hlk : s.simulation_threads.lookup u with
  | some g =>
    have hres : (start_simulation (some u) s).1.liveTasks =
        (s.liveTasks.filter (fun p => p.2 != g)) ++ [(u, s.nextGen)] := by
      simp [start_simulation, htr, hlk]
    rw [hres, List.filter_append]
    have h1 : (s.liveTasks.filter (fun p => p.2 != g)).filter (fun p => p.1 == u) = [] := by
      rw [List.filter_eq_nil_iff]
      intro p hp hpu
      obtain ⟨hpl, hpg⟩ := List.mem_filter.mp hp
      have hpg' : p.2 ≠ g := by simpa using hpg
      have hpu' : p.1 = u := by simpa using hpu
      have h2 := hA p hpl
      rw [hpu', hlk] at h2
      exact hpg' (Option.some.inj h2).symm
    rw [h1]
    simp
  | none =>
    have hres : (start_simulation (some u) s).1.liveTasks =
        s.liveTasks ++ [(u, s.nextGen)] := by
      simp [start_simulation, htr, hlk]
    rw [hres, List.filter_append]
    have h1 : s.liveTasks.filter (fun p => p.1 == u) = [] := by
      rw [List.filter_eq_nil_iff]
      intro p hp hpu
      have hpu' : p.1 = u := by simpa using hpu
      have h2 := hA p hp
      rw [hpu', hlk] at h2
      cases h2
    rw [h1]
    simp

/-- C1: after any sequence of handler invocations, each user has at most
one live (started, not yet joined) simulation thread; and a
`start_simulation` for user `u` — even when a task for `u` is already
registered — leaves exactly the freshly launched thread live for `u`,
because the old thread is signalled and joined before the new one is
created and started. -/
theorem at_most_one_live_task (evs : List Event) (u : String) :
    ((run evs).liveTasks.filter (fun p => p.1 == u)).length ≤ 1 ∧
    (u ≠ "" →
      (run (evs ++ [Event.startSim (some u)])).liveTasks.filter (fun p => p.1 == u) =
        [(u, (run evs).nextGen)]) := by
  have hInv := inv_run evs
  constructor
  · exact live_count_le_one (fun k => (run evs).simulation_threads.lookup k)
      (run evs).liveTasks hInv.1 hInv.2.2 u
  · intro hu
    rw [run_append_single]
    exact start_fresh (run evs) hInv u hu

theorem at_most_one_live_task_witness :
    ("u1" : String) ≠ "" ∧
    ((((run [Event.startSim (some "u1")]).liveTasks.filter
        (fun p => p.1 == "u1")).length ≤ 1) ∧
     (("u1" : String) ≠ "" →
       (run ([Event.startSim (some "u1")] ++ [Event.startSim (some "u1")])).liveTasks.filter
           (fun p => p.1 == "u1") =
         [("u1", (run [Event.startSim (some "u1")]).nextGen)])) :=
  ⟨by decide, at_most_one_live_task [Event.startSim (some "u1")] "u1"⟩

/-! ## C2 — what connect/disconnect actually do to the registry -/

/-- C2 (counterexample): "joining two sessions and disconnecting both
stops the task on the second (last) disconnect, not on the first" is
false for the code.  After two connects for user `"u1"` and a start, the
FIRST disconnect already raises the stop flag and joins the thread (no
live task remains), and the second disconnect is a complete no-op. -/
theorem stop_on_first_disconnect_cex :
    (run [Event.connect (some "u1"), Event.connect (some "u1"),
          Event.startSim (some "u1"), Event.disconnect (some "u1")]).liveTasks = [] ∧
    (run [Event.connect (some "u1"), Event.connect (some "u1"),
          Event.startSim (some "u1"),
          Event.disconnect (some "u1")]).stop_flags.lookup "u1" = some true ∧
    on_disconnect (some "u1")
        (run [Event.connect (some "u1"), Event.connect (some "u1"),
              Event.startSim (some "u1"), Event.disconnect (some "u1")]) =
      run [Event.connect (some "u1"), Event.connect (some "u1"),
           Event.startSim (some "u1"), Event.disconnect (some "u1")] := by
  decide

/-- C2 (amended): `handle_connect` records only a boolean presence flag
per user id — it stores no session identifiers — so a repeated connect
for the same user leaves the registry entry unchanged; the user's task is
then stopped (stop flag raised, thread joined) by the FIRST disconnect
that finds the user registered, which also deletes the registry entry, so
the immediately following disconnect is a no-op and the task is stopped
exactly once across the two disconnects — on the first, not the last. -/
theorem first_disconnect_stops (s : ServiceState) (hs : Inv s) (u : String)
    (hu : (s.active_users.lookup u).isSome = true)
    (hf : (s.stop_flags.lookup u).isSome = true) :
    (handle_connect (some u) (handle_connect (some u) s)).active_users =
      (handle_connect (some u) s).active_users ∧
    (on_disconnect (some u) s).stop_flags.lookup u = some true ∧
    (on_disconnect (some u) s).liveTasks.filter (fun p => p.1 == u) = [] ∧
    on_disconnect (some u) (on_disconnect (some u) s) = on_disconnect (some u) s := by
  obtain ⟨hA, hB, hN⟩ := hs
  have hconn : (handle_connect (some u) (handle_connect (some u) s)).active_users =
      (handle_connect (some u) s).active_users := by
    by_cases htr : truthy (some u) = true
    · simp [handle_connect, htr, upsert_idem]
    · rw [Bool.not_eq_true] at htr
      simp [handle_connect, htr]
  cases hlk : s.simulation_threads.lookup u with
  | some g =>
    have hres : on_disconnect (some u) s =
        { s with active_users := eraseKey u s.active_users,
                 roomLog := s.roomLog ++ [RoomOp.leave u],
                 connections := s.connections - 1,
                 stop_flags := upsert u true s.stop_flags,
                 liveTasks := s.liveTasks.filter (fun p => p.2 != g),
                 active_simulations := s.active_simulations - 1 } := by
      simp [on_disconnect, hu, hf, hlk]
    refine ⟨hconn, ?_, ?_, ?_⟩
    · rw [hres]
      exact lookup_upsert_self _ _ _
    · rw [hres]
      rw [List.filter_eq_nil_iff]
      intro p hp hpu
      obtain ⟨hpl, hpg⟩ := List.mem_filter.mp hp
      have hpg' : p.2 ≠ g := by simpa using hpg
      have hpu' : p.1 = u := by simpa using hpu
      have h2 := hA p hpl
      rw [hpu', hlk] at h2
      exact hpg' (Option.some.inj h2).symm
    · rw [hres]
      have : ((eraseKey u s.active_users).lookup u).isSome = false := by
        rw [lookup_eraseKey_self]
        rfl
      simp [on_disconnect, this]
  | none =>
    have hres : on_disconnect (some u) s =
        { s with active_users := eraseKey u s.active_users,
                 roomLog := s.roomLog ++ [RoomOp.leave u],
                 connections := s.connections - 1,
                 stop_flags := upsert u true s.stop_flags } := by
      simp [on_disconnect, hu, hf, hlk]
    refine ⟨hconn, ?_, ?_, ?_⟩
    · rw [hres]
      exact lookup_upsert_self _ _ _
    · rw [hres]
      rw [List.filter_eq_nil_iff]
      intro p hp hpu
      have hpu' : p.1 = u := by simpa using hpu
      have h2 := hA p hp
      rw [hpu', hlk] at h2
      cases h2
    · rw [hres]
      have : ((eraseKey u s.active_users).lookup u).isSome = false := by
        rw [lookup_eraseKey_self]
        rfl
      simp [on_disconnect, this]

theorem first_disconnect_stops_witness :
    ((run [Event.connect (some "u1"),
        Event.startSim (some "u1")]).active_users.lookup "u1").isSome = true ∧
    ((run [Event.connect (some "u1"),
        Event.startSim (some "u1")]).stop_flags.lookup "u1").isSome = true ∧
    ((handle_connect (some "u1") (handle_connect (some "u1")
        (run [Event.connect (some "u1"), Event.startSim (some "u1")]))).active_users =
      (handle_connect (some "u1")
        (run [Event.connect (some "u1"), Event.startSim (some "u1")])).active_users ∧
     (on_disconnect (some "u1")
        (run [Event.connect (some "u1"),
          Event.startSim (some "u1")])).stop_flags.lookup "u1" = some true ∧
     (on_disconnect (some "u1")
        (run [Event.connect (some "u1"),
          Event.startSim (some "u1")])).liveTasks.filter (fun p => p.1 == "u1") = [] ∧
     on_disconnect (some "u1") (on_disconnect (some "u1")
        (run [Event.connect (some "u1"), Event.startSim (some "u1")])) =
       on_disconnect (some "u1")
         (run [Event.connect (some "u1"), Event.startSim (some "u1")])) :=
  ⟨by decide, by decide,
   first_disconnect_stops (run [Event.connect (some "u1"), Event.startSim (some "u1")])
     (inv_run _) "u1" (by decide) (by decide)⟩

/-! ## C8 — a drained task is NOT removed from the task map -/

/-- C8 (counterexample): the claim "once a task's completion handle
resolves, the task is removed from the UserID-to-task map" is false for
the code.  Connect, start, then disconnect for `"u1"`: the thread is
signalled and joined (no live task remains), yet `simulation_threads`
still maps `"u1"` to the drained thread — no handler ever deletes it. -/
theorem drained_entry_remains_cex :
    (run [Event.connect (some "u1"), Event.startSim (some "u1"),
          Event.disconnect (some "u1")]).liveTasks = [] ∧
    (run [Event.connect (some "u1"), Event.startSim (some "u1"),
          Event.disconnect (some "u1")]).simulation_threads.lookup "u1" = some 0 := by
  decide

theorem start_simulation_threads (uid : Option String) (s : ServiceState) :
    (start_simulation uid s).1.simulation_threads =
      if truthy uid then upsert (uid.getD "") s.nextGen s.simulation_threads
      else s.simulation_threads := by
  by_cases h : truthy uid = true
  · simp only [start_simulation, h, if_true]
    split <;> rfl
  · rw [Bool.not_eq_true] at h
    simp [start_simulation, h]

/-- C8 (amended): an entry of `simulation_threads`, once present, is never
removed by any handler — in particular it survives the drain performed by
`on_disconnect`; it can only be overwritten by a later `start_simulation`
for the same user.  A fully drained user therefore keeps a stale entry in
the task map. -/
theorem threads_entry_persists (s : ServiceState) (ev : Event) (u : String)
    (h : (s.simulation_threads.lookup u).isSome = true) :
    ((step s ev).simulation_threads.lookup u).isSome = true := by
  cases ev with
  | startSim uid =>
    have ht := start_simulation_threads uid s
    simp only [step]
    rw [ht]
    by_cases htr : truthy uid = true
    · rw [if_pos htr]
      by_cases hue : u = uid.getD ""
      · rw [hue, lookup_upsert_self]
        rfl
      · rw [lookup_upsert_ne _ _ hue]
        exact h
    · rw [Bool.not_eq_true] at htr
      rw [htr]
      simp only [Bool.false_eq_true, if_false]
      exact h
  | connect uid =>
    by_cases htr : truthy uid = true
    · simp only [step, handle_connect, htr, if_true]
      exact h
    · rw [Bool.not_eq_true] at htr
      simp only [step, handle_connect, htr, Bool.false_eq_true, if_false]
      exact h
  | disconnect uid =>
    simp only [step]
    rw [on_disconnect_threads]
    exact h
  | triggerBug => exact h

theorem threads_entry_persists_witness :
    (((run [Event.connect (some "u1"), Event.startSim (some "u1"),
        Event.disconnect (some "u1")]).simulation_threads.lookup "u1").isSome = true) ∧
    (((step (run [Event.connect (some "u1"), Event.startSim (some "u1"),
        Event.disconnect (some "u1")])
          (Event.disconnect (some "u1"))).simulation_threads.lookup "u1").isSome = true) :=
  ⟨by decide,
   threads_entry_persists
     (run [Event.connect (some "u1"), Event.startSim (some "u1"),
       Event.disconnect (some "u1")])
     (Event.disconnect (some "u1")) "u1" (by decide)⟩

end Greenhouse
